import Mathlib

/-!
Shallow embedding of the cart-state logic of the "Twelve Thirty Four"
storefront theme: the quantity stepper and cart client (assets/global.js),
the cart icon and cart drawer (assets/slideshow-with-text.js), and the
fly-to-cart animation element (assets/fly-to-cart.js).

JavaScript numbers that matter here are integers (cart counts, quantities)
or exact halves (rect centers); the former are modelled as `Option Int`
with `none` playing the role of NaN, the latter as rationals.
-/

namespace TwelveThirtyFour

/-- Value of a run of decimal digit characters, most significant first. -/
def digitsToNat (ds : List Char) : Nat :=
  ds.foldl (fun acc c => 10 * acc + (c.toNat - 48)) 0

/-- Longest prefix of decimal digits, interpreted with the given sign;
NaN (`none`) when there is no digit. -/
def parseDigits (cs : List Char) (sign : Int) : Option Int :=
  let ds := cs.takeWhile Char.isDigit
  if ds.isEmpty then none
  else some (sign * (digitsToNat ds : Int))

/-- Model of JavaScript parseInt(s, 10): skip leading whitespace, read an
optional sign and then the longest digit run; NaN (`none`) otherwise. -/
def parseIntJS (s : String) : Option Int :=
  match s.toList.dropWhile Char.isWhitespace with
  | '-' :: rest => parseDigits rest (-1)
  | '+' :: rest => parseDigits rest 1
  | cs => parseDigits cs 1

/-- JavaScript addition where NaN (`none`) is absorbing. -/
def jsAdd : Option Int → Option Int → Option Int
  | some a, some b => some (a + b)
  | _, _ => none

/-- JavaScript comparison a < b where a may be NaN; NaN < b is false. -/
def jsLtNum : Option Int → Int → Bool
  | some a, b => decide (a < b)
  | none, _ => false

/-- JavaScript String(x) for a number that may be NaN. -/
def jsNumToString : Option Int → String
  | some a => toString a
  | none => "NaN"

namespace QuantitySelector

/-- Effective minimum of the stepper: parseInt(input.min, 10) || 0, i.e.
0 when the attribute is absent or non-numeric (and 0 stays 0, 0 being
falsy). From assets/global.js, QuantitySelector. -/
def effMin (minAttr : String) : Int :=
  match parseIntJS minAttr with
  | none => 0
  | some m => m

/-- Effective maximum of the stepper: parseInt(input.max, 10) || Infinity.
`none` stands for Infinity: the attribute being absent, non-numeric, or 0
(0 is falsy in JavaScript) all yield an unbounded maximum. -/
def effMax (maxAttr : String) : Option Int :=
  match parseIntJS maxAttr with
  | none => none
  | some m => if m = 0 then none else some m

/-- QuantitySelector.decrease: if currentValue > min, write currentValue-1
and fire a bubbling change event. The value slot carries the parseInt of
the input string (`none` = NaN); the Bool is whether the event fired. -/
def decrease (value : Option Int) (minAttr : String) : Option Int × Bool :=
  match value with
  | none => (none, false)
  | some v => if effMin minAttr < v then (some (v - 1), true) else (some v, false)

/-- QuantitySelector.increase: if currentValue < max, write currentValue+1
and fire a bubbling change event; NaN < anything is false. -/
def increase (value : Option Int) (maxAttr : String) : Option Int × Bool :=
  match value with
  | none => (none, false)
  | some v =>
    match effMax maxAttr with
    | none => (some (v + 1), true)
    | some mx => if v < mx then (some (v + 1), true) else (some v, false)

/-- QuantitySelector.validate, the input's change handler: NaN or a value
below min becomes min; a value above max becomes max; otherwise the value
is kept. -/
def validate (value : Option Int) (minAttr maxAttr : String) : Int :=
  match value with
  | none => effMin minAttr
  | some v =>
    if v < effMin minAttr then effMin minAttr
    else
      match effMax maxAttr with
      | none => v
      | some mx => if mx < v then mx else v

end QuantitySelector

namespace CartHandler

/-- The JavaScript values a caller can pass as variantId, with their
truthiness relevant to the `if (!variantId)` guard of addItem. -/
inductive JSValue
  | undef
  | nullVal
  | num (n : Int)
  | str (s : String)
  | boolVal (b : Bool)
deriving DecidableEq

/-- JavaScript truthiness of a JSValue. -/
def truthy : JSValue → Bool
  | .undef => false
  | .nullVal => false
  | .num n => decide (n ≠ 0)
  | .str s => decide (s ≠ "")
  | .boolVal b => b

/-- What the cart endpoints can answer: `ok` is response.ok, and the two
flags record whether the parsed JSON body has a truthy `status` or
`message` field (the platform error-payload quirk). -/
structure Response where
  ok : Bool
  hasStatus : Bool
  hasMessage : Bool
deriving DecidableEq

/-- Outcome of the underlying fetch call: a response, or a rejection. -/
inductive FetchResult
  | net (r : Response)
  | failed
deriving DecidableEq

/-- Observable outcome of a cart-client invocation: whether a network
request was issued, whether the returned promise rejects, and whether
updateCart (the success notification: badge refresh and drawer refresh)
was invoked. -/
structure ClientResult where
  networkCalled : Bool
  rejects : Bool
  notifies : Bool
deriving DecidableEq

/-- CartHandler.addItem (assets/global.js): a falsy variantId throws
before any fetch; otherwise one fetch is issued, and the promise rejects
without notifying when the body carries a truthy status or message field
or response.ok is false; only a clean response notifies and resolves. -/
def addItem (variantId : JSValue) (f : FetchResult) : ClientResult :=
  if truthy variantId = false then ⟨false, true, false⟩
  else
    match f with
    | .failed => ⟨true, true, false⟩
    | .net r =>
      if r.hasStatus || r.hasMessage || !r.ok then ⟨true, true, false⟩
      else ⟨true, false, true⟩

/-- CartHandler.updateItem (assets/global.js): one fetch; the promise
rejects only when the request itself rejects or response.ok is false —
the body's error-payload fields are never inspected. -/
def updateItem (f : FetchResult) : ClientResult :=
  match f with
  | .failed => ⟨true, true, false⟩
  | .net r => if !r.ok then ⟨true, true, false⟩ else ⟨true, false, true⟩

end CartHandler

namespace CartIcon

/-- What CartIcon.onCartUpdate decides to do with an event. -/
inductive CartUpdateAction
  | fetchCount
  | render (itemCount : Int) (comingFromProductForm : Bool)
deriving DecidableEq

/-- CartIcon.onCartUpdate (assets/slideshow-with-text.js): an absent
(undefined or null) itemCount triggers a re-fetch of the cart; a known
itemCount is rendered, flagged by whether the event source is the
product form component. -/
def onCartUpdate (itemCount : Option Int) (source : String) : CartUpdateAction :=
  match itemCount with
  | none => .fetchCount
  | some n => .render n (decide (source = "product-form-component"))

/-- Observable effect of one CartIcon.renderCartBubble run on the badge:
the count assigned through the currentCartCount setter, the resulting
textContent of the count element, the string persisted to session
storage, and the two visibility class toggles. -/
structure RenderResult where
  displayedCount : Option Int
  newText : String
  storedValue : String
  countHidden : Bool
  visuallyHidden : Bool
deriving DecidableEq

/-- CartIcon.renderCartBubble (assets/slideshow-with-text.js), given the
current textContent of the count element. The currentCartCount getter is
parseInt(textContent, 10); the setter writes String(value) when
value < 100 and the empty string otherwise; session storage receives
String(getter-after-set). Visibility classes toggle on itemCount = 0. -/
def renderCartBubble (text : String) (itemCount : Int) (comingFromProductForm : Bool) : RenderResult :=
  let newCount := if comingFromProductForm
    then jsAdd (parseIntJS text) (some itemCount)
    else some itemCount
  let newText := if jsLtNum newCount 100 then jsNumToString newCount else ""
  { displayedCount := newCount
    newText := newText
    storedValue := jsNumToString (parseIntJS newText)
    countHidden := decide (itemCount = 0)
    visuallyHidden := decide (itemCount = 0) }

/-- What CartIcon.ensureCartBubbleIsCorrect decides to do: nothing, or a
renderCartBubble call with the given count and flags. -/
inductive EnsureAction
  | noRender
  | render (count : Int) (comingFromProductForm : Bool) (animate : Bool)
deriving DecidableEq

/-- CartIcon.ensureCartBubbleIsCorrect (assets/slideshow-with-text.js):
with a session record (value, timestamp) and the visible textContent, do
nothing when the stored string equals the visible one; otherwise, when
now - timestamp < 10000 and the stored string parses to a count ≥ 0,
re-render that count without animation; otherwise do nothing. -/
def ensureCartBubbleIsCorrect (session : Option (String × Int)) (visible : String) (now : Int) : EnsureAction :=
  match session with
  | none => .noRender
  | some (value, ts) =>
    if value = visible then .noRender
    else if now - ts < 10000 then
      match parseIntJS value with
      | none => .noRender
      | some c => if 0 ≤ c then .render c false false else .noRender
    else .noRender

end CartIcon

namespace CartDrawer

/-- Outcome of the fetch to /cart/change.js. -/
inductive FetchOutcome
  | ok
  | notOk
  | rejected
deriving DecidableEq

/-- Observable effect of one CartDrawer.setQuantity run on its line item:
whether the removing mark was applied before the request, whether the
request was issued, whether the mark is still present once the call has
settled, and whether refresh and the cart:update event happened. -/
structure SetQuantityResult where
  markedDuring : Bool
  requestIssued : Bool
  removingAfter : Bool
  refreshed : Bool
  notified : Bool
deriving DecidableEq

/-- CartDrawer.setQuantity (assets/slideshow-with-text.js): quantity is
parseInt(input.value, 10) || 0; when it is 0 the line gets the removing
class; the update request is always issued; an ok response refreshes the
drawer and dispatches cart:update; only a rejected request (the catch
branch) removes the removing class; a non-ok response leaves everything
as it was after marking. -/
def setQuantity (rawValue : Option Int) (outcome : FetchOutcome) (wasRemoving : Bool) : SetQuantityResult :=
  let quantity := (rawValue.getD 0)
  let marked := if quantity = 0 then true else wasRemoving
  match outcome with
  | .ok => ⟨marked, true, marked, true, true⟩
  | .notOk => ⟨marked, true, marked, false, false⟩
  | .rejected => ⟨marked, true, false, false, false⟩

end CartDrawer

namespace FlyToCart

/-- A DOMRect as used by the animation: left, top, width, height. -/
structure Rect where
  left : ℚ
  top : ℚ
  width : ℚ
  height : ℚ
deriving DecidableEq

/-- A 2D point. -/
structure Point where
  x : ℚ
  y : ℚ
deriving DecidableEq

/-- Center of a rect: (left + width/2, top + height/2). -/
def rectCenter (r : Rect) : Point :=
  ⟨r.left + r.width / 2, r.top + r.height / 2⟩

/-- Start point of the animation (FlyToCart.animate): the source center. -/
def startPoint (sourceRect : Rect) : Point :=
  rectCenter sourceRect

/-- Travel delta of the animation (FlyToCart.animate): destination center
minus source center, set as the travel-x and travel-y properties. -/
def travelDelta (sourceRect destinationRect : Rect) : Point :=
  ⟨(rectCenter destinationRect).x - (rectCenter sourceRect).x,
   (rectCenter destinationRect).y - (rectCenter sourceRect).y⟩

/-- Lifecycle outcome of the element once connected. -/
inductive Behavior
  | removeImmediately
  | animateThenRemove
deriving DecidableEq

/-- FlyToCart.connectedCallback (assets/fly-to-cart.js): with source or
destination missing the element removes itself at once without animating;
with both present it animates and removes itself after its transitions
have settled. -/
def connectedCallback (hasSource hasDestination : Bool) : Behavior :=
  if !hasSource || !hasDestination then .removeImmediately
  else .animateThenRemove

end FlyToCart

/-!
Theorems settling the claims.
-/

/-- C7: for every call of the Cart Client's addItem with a missing (falsy)
variantId, the call fails before any network request is issued — whatever
the network would have answered, the result has no network call, a
rejected promise, and no success notification. -/
theorem cart_client_addItem_requires_variantId (vid : CartHandler.JSValue)
    (f : CartHandler.FetchResult) (h : CartHandler.truthy vid = false) :
    CartHandler.addItem vid f = ⟨false, true, false⟩ := by
  simp [CartHandler.addItem, h]

theorem cart_client_addItem_requires_variantId_witness :
    CartHandler.addItem (.num 0) (.net ⟨true, false, false⟩) = ⟨false, true, false⟩ :=
  cart_client_addItem_requires_variantId (.num 0) (.net ⟨true, false, false⟩) (by decide)

/-- C1 (amended): for addItem with a valid variantId, a 200-status (ok)
response whose body carries an error payload behaves exactly like a
rejected request: the promise rejects and no success notification
(updateCart) is emitted. The original claim also asserted this of
updateItem, which the code contradicts. -/
theorem cart_client_addItem_error_payload (vid : CartHandler.JSValue)
    (r : CartHandler.Response) (hv : CartHandler.truthy vid = true)
    (hok : r.ok = true) (herr : r.hasStatus = true ∨ r.hasMessage = true) :
    CartHandler.addItem vid (.net r) = CartHandler.addItem vid .failed
    ∧ (CartHandler.addItem vid (.net r)).rejects = true
    ∧ (CartHandler.addItem vid (.net r)).notifies = false := by
  have hcond : (r.hasStatus || r.hasMessage || !r.ok) = true := by
    rcases herr with h | h <;> simp [h]
  refine ⟨?_, ?_, ?_⟩ <;> simp [CartHandler.addItem, hv, hcond]

theorem cart_client_addItem_error_payload_witness :
    CartHandler.addItem (.num 123) (.net ⟨true, true, false⟩)
      = CartHandler.addItem (.num 123) .failed
    ∧ (CartHandler.addItem (.num 123) (.net ⟨true, true, false⟩)).rejects = true := by
  have h := cart_client_addItem_error_payload (.num 123) ⟨true, true, false⟩
    (by decide) (by decide) (Or.inl rfl)
  exact ⟨h.1, h.2.1⟩

/-- C1 counterexample: updateItem, on an ok (200) response whose body
carries an error payload, neither rejects nor withholds the success
notification — it resolves and emits the cart update, unlike what the
claim states for every Cart Client invocation. -/
theorem cart_client_updateItem_error_payload_counterexample :
    ¬ ((CartHandler.updateItem (.net ⟨true, true, true⟩)).rejects = true
        ∧ (CartHandler.updateItem (.net ⟨true, true, true⟩)).notifies = false) := by
  decide

/-- C3: evaluation of CartDrawer.setQuantity with new quantity 0 at each
fetch outcome. The line is marked for removal and the update call issued
in every case, and the drawer refreshes on success; but on a non-ok
response the removing mark is NOT reverted (only a rejected request
reverts it), contradicting the claim that any failure restores the
line's prior state. -/
theorem cart_drawer_setQuantity_outcomes :
    CartDrawer.setQuantity (some 0) .notOk false
      = ⟨true, true, true, false, false⟩
    ∧ CartDrawer.setQuantity (some 0) .rejected false
      = ⟨true, true, false, false, false⟩
    ∧ CartDrawer.setQuantity (some 0) .ok false
      = ⟨true, true, true, true, true⟩ := by
  decide

/-- C4 counterexample: with sourceRect = (0,0,40,40) and destinationRect
= (300,10,20,20) the travel delta computed by the animation is not
(300,-10) as the claim states. -/
theorem fly_to_cart_delta_counterexample :
    ¬ (FlyToCart.travelDelta ⟨0, 0, 40, 40⟩ ⟨300, 10, 20, 20⟩ = ⟨300, -10⟩) := by
  simp [FlyToCart.travelDelta, FlyToCart.rectCenter]
  norm_num

/-- C4 (amended): for those rects the start point (source center) is
(20,20) and the travel delta (destination center minus source center) is
(290,0); the element animates and then removes itself when both endpoint
elements are present, and removes itself immediately without animating
when either is absent. -/
theorem fly_to_cart_geometry :
    FlyToCart.startPoint ⟨0, 0, 40, 40⟩ = ⟨20, 20⟩
    ∧ FlyToCart.travelDelta ⟨0, 0, 40, 40⟩ ⟨300, 10, 20, 20⟩ = ⟨290, 0⟩
    ∧ FlyToCart.connectedCallback true true = .animateThenRemove
    ∧ FlyToCart.connectedCallback false true = .removeImmediately
    ∧ FlyToCart.connectedCallback true false = .removeImmediately := by
  refine ⟨?_, ?_, by decide, by decide, by decide⟩
  · simp [FlyToCart.startPoint, FlyToCart.rectCenter]
    norm_num
  · simp [FlyToCart.travelDelta, FlyToCart.rectCenter]
    norm_num

/-- C2: on a cart update carrying a known itemCount, the badge adds the
itemCount to the previously displayed count when the source is the
product form component, and replaces the count verbatim for every other
source. -/
theorem cart_badge_update_arithmetic (text : String) (prev n : Int) (src : String)
    (hprev : parseIntJS text = some prev) :
    CartIcon.onCartUpdate (some n) "product-form-component" = .render n true
    ∧ (CartIcon.renderCartBubble text n true).displayedCount = some (prev + n)
    ∧ (src ≠ "product-form-component" → CartIcon.onCartUpdate (some n) src = .render n false)
    ∧ (CartIcon.renderCartBubble text n false).displayedCount = some n := by
  refine ⟨?_, ?_, ?_, ?_⟩
  · simp [CartIcon.onCartUpdate]
  · simp [CartIcon.renderCartBubble, hprev, jsAdd]
  · intro h
    simp [CartIcon.onCartUpdate, h]
  · simp [CartIcon.renderCartBubble]

theorem cart_badge_update_arithmetic_witness :
    (CartIcon.renderCartBubble "3" 2 true).displayedCount = some (3 + 2)
    ∧ CartIcon.onCartUpdate (some 2) "drawer" = .render 2 false := by
  have h := cart_badge_update_arithmetic "3" 3 2 "drawer" (by decide)
  exact ⟨h.2.1, h.2.2.1 (by decide)⟩

/-- C5: on restore-from-cache the badge compares the session-stored value
to the rendered one: equal strings trigger no re-render; differing values
with a fresh (under 10 seconds old) timestamp re-render the stored count
without animation; a stale timestamp triggers no re-render at all. -/
theorem cart_badge_restore_from_cache (value visible : String) (ts now c : Int) :
    (value = visible →
      CartIcon.ensureCartBubbleIsCorrect (some (value, ts)) visible now = .noRender)
    ∧ (value ≠ visible → now - ts < 10000 → parseIntJS value = some c → 0 ≤ c →
      CartIcon.ensureCartBubbleIsCorrect (some (value, ts)) visible now = .render c false false)
    ∧ (10000 ≤ now - ts →
      CartIcon.ensureCartBubbleIsCorrect (some (value, ts)) visible now = .noRender) := by
  refine ⟨?_, ?_, ?_⟩
  · intro h
    simp [CartIcon.ensureCartBubbleIsCorrect, h]
  · intro h1 h2 h3 h4
    simp [CartIcon.ensureCartBubbleIsCorrect, h1, h2, h3, h4]
  · intro h
    have hfresh : ¬ (now - ts < 10000) := by omega
    rcases eq_or_ne value visible with he | he
    · simp [CartIcon.ensureCartBubbleIsCorrect, he]
    · simp [CartIcon.ensureCartBubbleIsCorrect, he, hfresh]

theorem cart_badge_restore_from_cache_witness :
    CartIcon.ensureCartBubbleIsCorrect (some ("3", 0)) "3" 500 = .noRender
    ∧ CartIcon.ensureCartBubbleIsCorrect (some ("5", 0)) "3" 500 = .render 5 false false
    ∧ CartIcon.ensureCartBubbleIsCorrect (some ("5", 0)) "3" 20000 = .noRender := by
  refine ⟨(cart_badge_restore_from_cache "3" "3" 0 500 3).1 rfl,
    (cart_badge_restore_from_cache "5" "3" 0 500 5).2.1
      (by decide) (by decide) (by decide) (by decide),
    (cart_badge_restore_from_cache "5" "3" 0 20000 5).2.2 (by decide)⟩

/-- C8: rendering a count of 100 or more leaves the count element's text
empty while the badge itself stays visible (the visually-hidden class is
only applied at count 0); a count below 100 renders the literal number. -/
theorem cart_badge_large_count_renders_no_text (text : String) (n : Int) :
    (100 ≤ n → (CartIcon.renderCartBubble text n false).newText = ""
      ∧ (CartIcon.renderCartBubble text n false).visuallyHidden = false)
    ∧ (n < 100 → (CartIcon.renderCartBubble text n false).newText = toString n) := by
  constructor
  · intro h
    have hlt : ¬ (n < 100) := by omega
    have hne : ¬ (n = 0) := by omega
    constructor
    · simp [CartIcon.renderCartBubble, jsLtNum, hlt]
    · simp [CartIcon.renderCartBubble, hne]
  · intro h
    simp [CartIcon.renderCartBubble, jsLtNum, jsNumToString, h]

theorem cart_badge_large_count_renders_no_text_witness :
    (CartIcon.renderCartBubble "7" 150 false).newText = ""
    ∧ (CartIcon.renderCartBubble "7" 150 false).visuallyHidden = false
    ∧ (CartIcon.renderCartBubble "7" 5 false).newText = toString (5 : Int) := by
  refine ⟨((cart_badge_large_count_renders_no_text "7" 150).1 (by decide)).1,
    ((cart_badge_large_count_renders_no_text "7" 150).1 (by decide)).2,
    (cart_badge_large_count_renders_no_text "7" 5).2 (by decide)⟩

/-- C9: a render of a three-digit count empties the badge text; with the
text empty, the currentCartCount getter parses to NaN, a product-form
update with any known itemCount then computes NaN as the new displayed
count, and the session-storage value written by that render is the
string NaN rather than a numeral. -/
theorem cart_badge_nan_session_storage (t : String) (k : Int) :
    (CartIcon.renderCartBubble t 150 false).newText = ""
    ∧ parseIntJS "" = none
    ∧ (CartIcon.renderCartBubble "" k true).displayedCount = none
    ∧ (CartIcon.renderCartBubble "" k true).storedValue = "NaN" := by
  have hempty : parseIntJS "" = none := by decide
  refine ⟨?_, hempty, ?_, ?_⟩
  · simp [CartIcon.renderCartBubble, jsLtNum]
  · simp [CartIcon.renderCartBubble, jsAdd, hempty]
  · simp [CartIcon.renderCartBubble, jsAdd, jsLtNum, jsNumToString, hempty]

theorem cart_badge_nan_session_storage_witness :
    (CartIcon.renderCartBubble "" 2 true).storedValue = "NaN" :=
  (cart_badge_nan_session_storage "7" 2).2.2.2

/-- C6: with a consistent configuration (every bounded maximum at or
above the effective minimum), the change handler clamps any direct input
— NaN or any magnitude or sign — into the configured bounds; decrement
at the minimum and increment at the maximum are no-ops that fire no
event; and a stepper run that changes the value fires the bubbling
change event. -/
theorem quantity_control_clamps (minA maxA : String) (v : Option Int)
    (hvalid : ∀ m, QuantitySelector.effMax maxA = some m → QuantitySelector.effMin minA ≤ m) :
    (QuantitySelector.effMin minA ≤ QuantitySelector.validate v minA maxA
      ∧ (∀ m, QuantitySelector.effMax maxA = some m →
        QuantitySelector.validate v minA maxA ≤ m))
    ∧ QuantitySelector.decrease (some (QuantitySelector.effMin minA)) minA
        = (some (QuantitySelector.effMin minA), false)
    ∧ (∀ m, QuantitySelector.effMax maxA = some m →
      QuantitySelector.increase (some m) maxA = (some m, false))
    ∧ (∀ w : Int, (QuantitySelector.decrease (some w) minA).1 ≠ some w →
      (QuantitySelector.decrease (some w) minA).2 = true)
    ∧ (∀ w : Int, (QuantitySelector.increase (some w) maxA).1 ≠ some w →
      (QuantitySelector.increase (some w) maxA).2 = true) := by
  refine ⟨⟨?_, ?_⟩, ?_, ?_, ?_, ?_⟩
  · cases v with
    | none => simp [QuantitySelector.validate]
    | some w =>
      by_cases h1 : w < QuantitySelector.effMin minA
      · simp [QuantitySelector.validate, h1]
      · cases hm : QuantitySelector.effMax maxA with
        | none => simp [QuantitySelector.validate, h1, hm]; omega
        | some mx =>
          by_cases h2 : mx < w
          · simpa [QuantitySelector.validate, h1, hm, h2] using hvalid mx hm
          · simp [QuantitySelector.validate, h1, hm, h2]; omega
  · intro m hm
    cases v with
    | none => simpa [QuantitySelector.validate] using hvalid m hm
    | some w =>
      by_cases h1 : w < QuantitySelector.effMin minA
      · simpa [QuantitySelector.validate, h1] using hvalid m hm
      · by_cases h2 : m < w
        · simp [QuantitySelector.validate, h1, hm, h2]
        · simp [QuantitySelector.validate, h1, hm, h2]; omega
  · simp [QuantitySelector.decrease]
  · intro m hm
    simp [QuantitySelector.increase, hm]
  · intro w h
    by_cases hc : QuantitySelector.effMin minA < w
    · simp [QuantitySelector.decrease, hc]
    · simp [QuantitySelector.decrease, hc] at h
  · intro w h
    cases hm : QuantitySelector.effMax maxA with
    | none => simp [QuantitySelector.increase, hm]
    | some mx =>
      by_cases hc : w < mx
      · simp [QuantitySelector.increase, hm, hc]
      · simp [QuantitySelector.increase, hm, hc] at h

theorem quantity_control_clamps_witness :
    QuantitySelector.effMin "1" ≤ QuantitySelector.validate (some 99) "1" "5"
    ∧ QuantitySelector.decrease (some (QuantitySelector.effMin "1")) "1"
        = (some (QuantitySelector.effMin "1"), false) := by
  have h5 : QuantitySelector.effMax "5" = some 5 := by decide
  have hvalid : ∀ m : Int, QuantitySelector.effMax "5" = some m →
      QuantitySelector.effMin "1" ≤ m := by
    intro m hm
    rw [h5] at hm
    injection hm with h
    rw [← h]
    decide
  exact ⟨(quantity_control_clamps "1" "5" (some 99) hvalid).1.1,
    (quantity_control_clamps "1" "5" (some 99) hvalid).2.1⟩

/-- C10: a max attribute that is absent, non-numeric, or the string 0 is
treated as Infinity — increment always succeeds and fires the event, and
the change handler never clamps from above — while a min attribute that
is absent or non-numeric is treated as 0; the configured bound 0 is
indistinguishable from no bound for both attributes. -/
theorem quantity_control_zero_max_unbounded :
    (QuantitySelector.effMax "" = none ∧ QuantitySelector.effMax "abc" = none
      ∧ QuantitySelector.effMax "0" = none)
    ∧ (QuantitySelector.effMin "" = 0 ∧ QuantitySelector.effMin "abc" = 0
      ∧ QuantitySelector.effMin "0" = QuantitySelector.effMin "")
    ∧ (∀ v : Int, QuantitySelector.increase (some v) "0" = (some (v + 1), true)
      ∧ QuantitySelector.increase (some v) "0" = QuantitySelector.increase (some v) "")
    ∧ (∀ v : Int, QuantitySelector.validate (some v) "" "0"
      = if v < 0 then 0 else v) := by
  have h0 : QuantitySelector.effMax "0" = none := by decide
  have hE : QuantitySelector.effMax "" = none := by decide
  have hm : QuantitySelector.effMin "" = 0 := by decide
  refine ⟨⟨hE, by decide, h0⟩, ⟨hm, by decide, by decide⟩, ?_, ?_⟩
  · intro v
    constructor <;> simp [QuantitySelector.increase, h0, hE]
  · intro v
    by_cases hv : v < 0
    · simp [QuantitySelector.validate, hm, hv]
    · simp [QuantitySelector.validate, hm, h0, hv]

theorem quantity_control_zero_max_unbounded_witness :
    QuantitySelector.increase (some 7) "0" = (some (7 + 1), true) :=
  (quantity_control_zero_max_unbounded.2.2.1 7).1

end TwelveThirtyFour
